import Mathlib

/-!
Shallow embedding of the core logic of `src/App.tsx` (LuxList AI, a real-estate
listing generator).  Pure data and state-transition functions are translated
directly from the source; ambient effects (random id generation, the current
timestamp, the network round trip, `localStorage`) are modelled by passing
their outcomes as explicit arguments.  A JavaScript string-or-undefined value
is modelled as `Option String` (`none` = `undefined`).
-/

namespace LuxList

/-- `tone` enum of `ListingSchema`. -/
inductive Tone where
  | standard | luxury | investor | casual | hype | simple
deriving DecidableEq, Repr

/-- `length` enum of `ListingSchema`. -/
inductive LengthOpt where
  | short | medium | long
deriving DecidableEq, Repr

/-- `language` enum of `ListingSchema`. -/
inductive Language where
  | en | es
deriving DecidableEq, Repr

/-- The raw form state (`useState<ListingFormState>` initial shape): every
field is a plain string; the three enum fields hold whatever string is in the
DOM state, so that out-of-range injection can be modelled. -/
structure RawForm where
  propertyType : String
  address : String
  price : String
  beds : String
  baths : String
  sqft : String
  lotSize : String
  yearBuilt : String
  parking : String
  neighborhood : String
  highlights : String
  tone : String
  length : String
  language : String
deriving DecidableEq, Repr

/-- `ListingFormState` after a successful `ListingSchema.safeParse`:
the enum fields are known to be in range. -/
structure ValidatedForm where
  propertyType : String
  address : String
  price : String
  beds : String
  baths : String
  sqft : String
  lotSize : String
  yearBuilt : String
  parking : String
  neighborhood : String
  highlights : String
  tone : Tone
  length : LengthOpt
  language : Language
deriving DecidableEq, Repr

/-- The six output keys of `ListingOutputs`. -/
inductive ListingField where
  | heading | mls | zillow | social | email | tiktok
deriving DecidableEq, Repr

/-- Runtime value of a `ListingOutputs` object.  The TypeScript
`as ListingOutputs` cast performs no runtime check, so a field can be absent
(`undefined`), modelled as `none`. -/
structure ListingOutputs where
  heading : Option String
  mls : Option String
  zillow : Option String
  social : Option String
  email : Option String
  tiktok : Option String
deriving DecidableEq, Repr

/-- JavaScript property read `o[field]`. -/
def ListingOutputs.get (o : ListingOutputs) : ListingField → Option String
  | .heading => o.heading
  | .mls => o.mls
  | .zillow => o.zillow
  | .social => o.social
  | .email => o.email
  | .tiktok => o.tiktok

/-- JavaScript spread update `\x7b ...o, [field]: v \x7d`. -/
def ListingOutputs.set (o : ListingOutputs) : ListingField → Option String → ListingOutputs
  | .heading, v => { o with heading := v }
  | .mls, v => { o with mls := v }
  | .zillow, v => { o with zillow := v }
  | .social, v => { o with social := v }
  | .email, v => { o with email := v }
  | .tiktok, v => { o with tiktok := v }

/-- The literal key name used in prompts and in `rewriteLoadingKey`. -/
def fieldName : ListingField → String
  | .heading => "heading"
  | .mls => "mls"
  | .zillow => "zillow"
  | .social => "social"
  | .email => "email"
  | .tiktok => "tiktok"

/-- JavaScript truthiness of a string-or-undefined value:
`undefined` and `""` are falsy. -/
def jsTruthy : Option String → Bool
  | none => false
  | some s => s != ""

/-- `HistoryItem` record. -/
structure HistoryItem where
  id : String
  createdAt : String
  form : ValidatedForm
  outputs : ListingOutputs
  favorite : Bool
deriving DecidableEq, Repr

/-- `HISTORY_LIMIT` constant. -/
def HISTORY_LIMIT : Nat := 50

/-- Outcome of one completion round trip, as observed by the `try` block:
either the request or `JSON.parse` threw (carrying `e.message`), or parsing
succeeded and produced an object whose six relevant keys are as given
(`none` = key absent). -/
inductive ModelResponse where
  | failure (msg : String)
  | success (json : ListingOutputs)
deriving DecidableEq, Repr

/-- The component state relevant to the core logic (the `useState` cells of
`App`, minus the presentational `copiedKey`). -/
structure AppState where
  loading : Bool
  rewriteLoadingKey : Option String
  output : Option ListingOutputs
  error : Option String
  form : RawForm
  history : List HistoryItem
  selectedHistoryId : Option String
deriving DecidableEq, Repr

/-- The initial `useState` values. -/
def initialState : AppState :=
  { loading := false
    rewriteLoadingKey := none
    output := none
    error := none
    form :=
      { propertyType := "", address := "", price := "", beds := "", baths := ""
        sqft := "", lotSize := "", yearBuilt := "", parking := ""
        neighborhood := "", highlights := ""
        tone := "luxury", length := "medium", language := "en" }
    history := []
    selectedHistoryId := none }

/-- The startup `useEffect` that reads `localStorage`: `parsed = none` models
a missing key, a falsy raw string, or `JSON.parse` throwing (all leave the
state untouched); `parsed = some l` models a successful parse, which is
installed verbatim — the effect performs no truncation or validation. -/
def loadHistoryFromStorage (parsed : Option (List HistoryItem)) (s : AppState) : AppState :=
  match parsed with
  | none => s
  | some l => { s with history := l }

/-- `addToHistory`: `id` and `createdAt` are the freshly generated values
(`crypto.randomUUID()+"-"+…` and `new Date().toISOString()`). -/
def addToHistory (id createdAt : String) (formData : ValidatedForm)
    (outputs : ListingOutputs) (s : AppState) : AppState :=
  let item : HistoryItem :=
    { id := id, createdAt := createdAt, form := formData
      outputs := outputs, favorite := false }
  let updated := item :: s.history
  let newHist := if HISTORY_LIMIT < updated.length then updated.take HISTORY_LIMIT else updated
  { s with history := newHist, selectedHistoryId := some id }

/-- `toggleFavorite`. -/
def toggleFavorite (id : String) (s : AppState) : AppState :=
  { s with history :=
      s.history.map (fun h => if h.id = id then { h with favorite := !h.favorite } else h) }

/-- `deleteFromHistory`. -/
def deleteFromHistory (id : String) (s : AppState) : AppState :=
  let s1 := { s with history := s.history.filter (fun h => h.id != id) }
  if s.selectedHistoryId = some id then
    { s1 with selectedHistoryId := none, output := none }
  else s1

/-- The history update inside `rewriteSection` (`setHistory(prev => prev.map …)`),
the History Store operation the spec calls `updateOutputField`. -/
def updateOutputField (id : String) (field : ListingField) (text : String)
    (s : AppState) : AppState :=
  { s with history :=
      s.history.map (fun h =>
        if h.id = id then { h with outputs := h.outputs.set field (some text) } else h) }

/-- `loadFromHistory` restores the stored enum strings verbatim. -/
def toneStr : Tone → String
  | .standard => "standard"
  | .luxury => "luxury"
  | .investor => "investor"
  | .casual => "casual"
  | .hype => "hype"
  | .simple => "simple"

def lengthStr : LengthOpt → String
  | .short => "short"
  | .medium => "medium"
  | .long => "long"

def languageStr : Language → String
  | .en => "en"
  | .es => "es"

def rawOfValidated (d : ValidatedForm) : RawForm :=
  { propertyType := d.propertyType, address := d.address, price := d.price
    beds := d.beds, baths := d.baths, sqft := d.sqft, lotSize := d.lotSize
    yearBuilt := d.yearBuilt, parking := d.parking
    neighborhood := d.neighborhood, highlights := d.highlights
    tone := toneStr d.tone, length := lengthStr d.length
    language := languageStr d.language }

/-- `loadFromHistory`. -/
def loadFromHistory (item : HistoryItem) (s : AppState) : AppState :=
  { s with form := rawOfValidated item.form
           output := some item.outputs
           selectedHistoryId := some item.id }

/-! ## Validation (`ListingSchema.safeParse`) -/

/-- The `z.enum([...])` check for `tone`. -/
def parseTone (s : String) : Option Tone :=
  if s = "standard" then some .standard
  else if s = "luxury" then some .luxury
  else if s = "investor" then some .investor
  else if s = "casual" then some .casual
  else if s = "hype" then some .hype
  else if s = "simple" then some .simple
  else none

/-- The `z.enum([...])` check for `length`. -/
def parseLength (s : String) : Option LengthOpt :=
  if s = "short" then some .short
  else if s = "medium" then some .medium
  else if s = "long" then some .long
  else none

/-- The `z.enum([...])` check for `language`. -/
def parseLanguage (s : String) : Option Language :=
  if s = "en" then some .en
  else if s = "es" then some .es
  else none

/-- `ListingSchema.safeParse`: `min(1)` on `propertyType`, `min(3)` on
`highlights`, enum membership on `tone`/`length`/`language`; the optional
string fields always pass through verbatim. -/
def validateForm (f : RawForm) : Option ValidatedForm := do
  let t ← parseTone f.tone
  let l ← parseLength f.length
  let g ← parseLanguage f.language
  if 1 ≤ f.propertyType.length ∧ 3 ≤ f.highlights.length then
    some { propertyType := f.propertyType, address := f.address, price := f.price
           beds := f.beds, baths := f.baths, sqft := f.sqft, lotSize := f.lotSize
           yearBuilt := f.yearBuilt, parking := f.parking
           neighborhood := f.neighborhood, highlights := f.highlights
           tone := t, length := l, language := g }
  else none

/-! ## Prompt construction (`generate` body) -/

/-- `toneMap` constant (defined in the source, see the C1 analysis). -/
def toneMap : Tone → String
  | .standard => "professional, neutral real estate tone"
  | .luxury => "high-end, premium, aspirational luxury tone"
  | .investor => "ROI-focused, cash-flow oriented, investor analysis style"
  | .casual => "friendly, approachable, conversational tone"
  | .hype => "energetic, modern, attention-grabbing tone"
  | .simple => "easy-to-read, clear, simple tone"

/-- `lengthMap` constant. -/
def lengthMap : LengthOpt → String
  | .short => "40–70 words"
  | .medium => "120–180 words"
  | .long => "220–300 words"

/-- The `lang` binding computed in `generate`
(`data.language === "es" ? "Spanish" : "English"`). -/
def langOf (d : ValidatedForm) : String :=
  if d.language = .es then "Spanish" else "English"

/-- Does `pat` occur as a prefix of `l`?  (List-level helper.) -/
def beginsWithL : List Char → List Char → Bool
  | _, [] => true
  | [], _ :: _ => false
  | a :: as, b :: bs => a = b && beginsWithL as bs

/-- Does `pat` occur as a contiguous sublist of `l`? -/
def containsSub (l pat : List Char) : Bool :=
  match l with
  | [] => pat.isEmpty
  | _ :: rest => beginsWithL l pat || containsSub rest pat

/-- JavaScript `s.includes(pat)`, used to state substring facts about
prompts. -/
def containsStr (s pat : String) : Bool := containsSub s.data pat.data

/-- JavaScript `s.startsWith(pre)`. -/
def jsStartsWith (s pre : String) : Bool := beginsWithL s.data pre.data

/-- JavaScript `s.trim()`: strip whitespace from both ends (the prompt
templates only ever carry `' '` and `'\n'` at their ends). -/
def jsTrim (s : String) : String :=
  ⟨((s.data.dropWhile Char.isWhitespace).reverse.dropWhile Char.isWhitespace).reverse⟩

/-- `${x || "N/A"}` for an optional field. -/
def orNA (s : String) : String := if s = "" then "N/A" else s

/-- The `details` template literal (with its `.trim()`). -/
def detailsBlock (d : ValidatedForm) : String :=
  jsTrim ("\nProperty Type: " ++ d.propertyType ++
   "\nAddress: " ++ orNA d.address ++
   "\nPrice: " ++ orNA d.price ++
   "\nBeds: " ++ orNA d.beds ++
   "\nBaths: " ++ orNA d.baths ++
   "\nSqFt: " ++ orNA d.sqft ++
   "\nLot Size: " ++ orNA d.lotSize ++
   "\nYear Built: " ++ orNA d.yearBuilt ++
   "\nParking: " ++ orNA d.parking ++
   "\nNeighborhood: " ++ orNA d.neighborhood ++
   "\nHighlights: " ++ d.highlights ++ "\n")

/-- The fixed instruction text of the generation prompt template, up to the
`${details}` interpolation point. -/
def promptFixedText : String :=
  "\nYou are a senior real estate listing copywriter with 20+ years experience.\n" ++
  "You ONLY write text descriptions (NOT links, NOT MLS numbers, NOT emails).\n" ++
  "You ALWAYS follow Fair Housing laws.\n\n" ++
  "Write FIVE versions of listing copy for the following property, using the details provided.\n\n" ++
  "Return your response as JSON with ONLY these keys:\n" ++
  "\"heading\", \"mls\", \"zillow\", \"social\", \"email\", \"tiktok\".\n\n" ++
  "### THE PURPOSE OF EACH FIELD:\n\n" ++
  "heading:\n" ++
  "- A short luxury-style headline (4–8 words)\n" ++
  "- No emojis\n\n" ++
  "mls:\n" ++
  "- Professional MLS-style paragraph\n" ++
  "- 120–160 words\n" ++
  "- Full property description\n" ++
  "- Include layout, features, materials, upgrades, PARKING, LOT SIZE, and YEAR BUILT where provided\n" ++
  "- NO links, NO MLS numbers, NO contact info\n\n" ++
  "zillow:\n" ++
  "- Friendly, lifestyle-focused description\n" ++
  "- 100–140 words\n" ++
  "- More emotional, less formal\n" ++
  "- Include some lifestyle context (near parks, schools, shopping) when provided\n" ++
  "- NO links\n\n" ++
  "social:\n" ++
  "- Instagram-style caption\n" ++
  "- 1–3 sentences\n" ++
  "- Add 5–8 luxury real estate hashtags\n" ++
  "- MAX 2 emojis\n" ++
  "- NO links\n\n" ++
  "email:\n" ++
  "- Professional summary paragraph\n" ++
  "- 60–100 words\n" ++
  "- Written as if an agent is describing the home via email\n" ++
  "- NO email addresses\n\n" ++
  "tiktok:\n" ++
  "- Hook + 4–6 bullet points + call-to-action\n" ++
  "- MAX 2 emojis total\n" ++
  "- NO TikTok links\n" ++
  "- NO user handles\n" ++
  "- Short, punchy, and high-energy\n\n" ++
  "### PROPERTY DETAILS:\n"

/-- The `prompt` template literal of `generate` (with its `.trim()`).  Note
that the only interpolation is `${details}`: `toneMap`, `lengthMap` and
`lang` do not occur in it. -/
def buildGenerationPrompt (d : ValidatedForm) : String :=
  jsTrim (promptFixedText ++ detailsBlock d ++ "\n")

/-- The `prompt` template literal of `rewriteSection` (with its `.trim()`). -/
def buildRewritePrompt (field : ListingField) (instruction current : String) : String :=
  jsTrim ("\nYou are a senior real estate copywriter.\n" ++
   "Rewrite the existing " ++ fieldName field ++ " text below according to the instruction.\n\n" ++
   "Instruction: " ++ instruction ++ "\n\n" ++
   "Return JSON with ONLY this key: \"" ++ fieldName field ++ "\".\n\n" ++
   "Existing text:\n\"\"\"" ++ current ++ "\"\"\"\n")

/-! ## The `generate` flow -/

/-- The fixed validation failure message. -/
def validationErrorMsg : String :=
  "❌ Fill required fields correctly (Property Type & Highlights)."

/-- One complete run of `generate`, from click to settled promise.  `id` and
`createdAt` are the fresh values produced inside `addToHistory`; `resp` is
the outcome of the awaited completion call plus `JSON.parse`.  Returns the
final state and whether a network request was sent. -/
def generate (id createdAt : String) (resp : ModelResponse) (s : AppState) :
    AppState × Bool :=
  let s1 := { s with loading := true, output := none, error := none }
  match validateForm s1.form with
  | none => ({ s1 with error := some validationErrorMsg, loading := false }, false)
  | some data =>
    match resp with
    | .failure msg =>
        ({ s1 with error := some ("OpenAI Error: " ++ msg), loading := false }, true)
    | .success json =>
        let s2 := { s1 with output := some json }
        let s3 := addToHistory id createdAt data json s2
        ({ s3 with loading := false }, true)

/-! ## The `rewriteSection` flow -/

/-- One complete run of `rewriteSection(field, instruction)`.  Returns the
final state and whether a network request was sent. -/
def rewriteSection (field : ListingField) (instruction : String)
    (resp : ModelResponse) (s : AppState) : AppState × Bool :=
  match s.output with
  | none => (s, false)
  | some o =>
    if jsTruthy (o.get field) = false then (s, false)
    else
      let s1 := { s with
        rewriteLoadingKey := some (fieldName field ++ ":" ++ instruction)
        error := none }
      match resp with
      | .failure msg =>
          ({ s1 with error := some ("Rewrite error: " ++ msg)
                     rewriteLoadingKey := none }, true)
      | .success json =>
          if jsTruthy (json.get field) = false then
            ({ s1 with
                error := some "Rewrite error: Model did not return rewritten field."
                rewriteLoadingKey := none }, true)
          else
            let t := (json.get field).getD ""
            let s2 := { s1 with output := some (o.set field (some t)) }
            let s3 := match s1.selectedHistoryId with
                      | some sid => updateOutputField sid field t s2
                      | none => s2
            ({ s3 with rewriteLoadingKey := none }, true)

/-! ## UI-level single-flight guards -/

/-- `isBusy` (used as `disabled=\x7bisBusy\x7d` on the Generate button). -/
def isBusy (s : AppState) : Bool := s.loading || s.rewriteLoadingKey.isSome

/-- The `disabled` expression on every rewrite button for `field`:
`rewriteLoadingKey?.startsWith("<field>:") || loading`. -/
def rewriteButtonDisabled (s : AppState) (field : ListingField) : Bool :=
  (match s.rewriteLoadingKey with
   | some k => jsStartsWith k (fieldName field ++ ":")
   | none => false) || s.loading

/-! ## Repeated additions (for the history-ordering property) -/

/-- The inputs of one `addToHistory` call: the fresh id and timestamp, and
the `(form, outputs)` pair being recorded. -/
structure AddInput where
  id : String
  createdAt : String
  form : ValidatedForm
  outputs : ListingOutputs
deriving DecidableEq, Repr

/-- The `HistoryItem` that `addToHistory` builds from one input bundle. -/
def mkItem (p : AddInput) : HistoryItem :=
  { id := p.id, createdAt := p.createdAt, form := p.form
    outputs := p.outputs, favorite := false }

/-- A sequence of `addToHistory` calls, oldest first. -/
def addAll (l : List AddInput) (s : AppState) : AppState :=
  l.foldl (fun st p => addToHistory p.id p.createdAt p.form p.outputs st) s

/-! ## Concrete fixtures used by closed theorems and witnesses -/

/-- A validated form (spec §8 scenario A, with `language := es`). -/
def F1 : ValidatedForm :=
  { propertyType := "Condo", address := "", price := "", beds := "", baths := ""
    sqft := "", lotSize := "", yearBuilt := "", parking := "", neighborhood := ""
    highlights := "ocean view, updated kitchen"
    tone := .luxury, length := .medium, language := .es }

/-- The corresponding raw form, as held in component state. -/
def validRaw : RawForm :=
  { propertyType := "Condo", address := "", price := "", beds := "", baths := ""
    sqft := "", lotSize := "", yearBuilt := "", parking := "", neighborhood := ""
    highlights := "ocean view, updated kitchen"
    tone := "luxury", length := "medium", language := "es" }

/-- A fully populated output object. -/
def O1 : ListingOutputs :=
  { heading := some "Oceanfront Gem Awaits"
    mls := some "Spacious condo with ocean views and an updated kitchen."
    zillow := some "Live steps from the water."
    social := some "Just listed by the beach."
    email := some "Sharing a new condo listing today."
    tiktok := some "POV: you wake up to ocean views." }

/-- The parse result of the JSON text `"\x7b\x7d"`: all six keys absent. -/
def emptyJson : ListingOutputs :=
  { heading := none, mls := none, zillow := none, social := none
    email := none, tiktok := none }

/-- A state whose form passes validation. -/
def validState : AppState := { initialState with form := validRaw }

/-- A generic persisted history entry. -/
def itemW : HistoryItem :=
  { id := "old", createdAt := "2024-01-01T00:00:00.000Z", form := F1
    outputs := O1, favorite := false }

/-- A state whose history is at capacity. -/
def fullState : AppState := { initialState with history := List.replicate 50 itemW }

/-- A state captured while a rewrite of `zillow` (triggered by its
"Shorter" button) is awaiting its response: `rewriteLoadingKey` is set to
the pending field/instruction pair. -/
def pendingRewriteState : AppState :=
  { initialState with
    output := some O1
    rewriteLoadingKey := some "zillow:Tighten this up and make it a bit shorter." }

/-- Two history entries (the first will be the selected one). -/
def entry1 : HistoryItem :=
  { id := "e1", createdAt := "t1", form := F1, outputs := O1, favorite := false }

def entry2 : HistoryItem :=
  { id := "e2", createdAt := "t2", form := F1, outputs := O1, favorite := true }

/-- A ready state: output on screen, two history entries, first selected. -/
def readyState : AppState :=
  { initialState with
    output := some O1
    history := [entry1, entry2]
    selectedHistoryId := some "e1" }

/-- A rewrite response object carrying only the `mls` key. -/
def mlsJson : ListingOutputs := { emptyJson with mls := some "Shorter condo text." }

/-- A ready state whose `mls` field is the empty string. -/
def emptyMlsState : AppState :=
  { initialState with output := some { O1 with mls := some "" } }

/-! ## Helper lemmas -/

/-- `addToHistory` always leaves `take HISTORY_LIMIT` of the prepended log
(the source only calls `slice` when the limit is exceeded, but the two
branches agree with an unconditional truncation). -/
theorem addToHistory_history_eq (id ts : String) (f : ValidatedForm) (o : ListingOutputs)
    (s : AppState) :
    (addToHistory id ts f o s).history =
      (({ id := id, createdAt := ts, form := f, outputs := o, favorite := false } : HistoryItem)
        :: s.history).take HISTORY_LIMIT := by
  simp only [addToHistory]
  split
  · rfl
  · next h => exact (List.take_of_length_le (Nat.le_of_not_lt h)).symm

theorem take_append_take {α : Type} (n : Nat) (A B : List α) :
    (A ++ B.take n).take n = (A ++ B).take n := by
  rw [List.take_append_eq_append_take, List.take_append_eq_append_take, List.take_take,
    Nat.min_eq_left (Nat.sub_le n A.length)]

/-- Folding `addToHistory` over a list of inputs (oldest first) leaves the
reversed inputs in front of the starting log, truncated to capacity. -/
theorem addAll_history_eq (l : List AddInput) (s : AppState)
    (hs : s.history.length ≤ HISTORY_LIMIT) :
    (addAll l s).history = ((l.map mkItem).reverse ++ s.history).take HISTORY_LIMIT := by
  induction l generalizing s with
  | nil => simpa [addAll] using (List.take_of_length_le hs).symm
  | cons p ps ih =>
    have h1 : (addToHistory p.id p.createdAt p.form p.outputs s).history
        = (mkItem p :: s.history).take HISTORY_LIMIT :=
      addToHistory_history_eq p.id p.createdAt p.form p.outputs s
    have hlen : (addToHistory p.id p.createdAt p.form p.outputs s).history.length
        ≤ HISTORY_LIMIT := by
      rw [h1, List.length_take]; exact Nat.min_le_left _ _
    have hrec := ih (addToHistory p.id p.createdAt p.form p.outputs s) hlen
    calc (addAll (p :: ps) s).history
        = (addAll ps (addToHistory p.id p.createdAt p.form p.outputs s)).history := rfl
      _ = ((ps.map mkItem).reverse
            ++ (mkItem p :: s.history).take HISTORY_LIMIT).take HISTORY_LIMIT := by
          rw [hrec, h1]
      _ = ((ps.map mkItem).reverse ++ (mkItem p :: s.history)).take HISTORY_LIMIT :=
          take_append_take _ _ _
      _ = (((p :: ps).map mkItem).reverse ++ s.history).take HISTORY_LIMIT := by
          simp [List.append_assoc]

set_option maxRecDepth 200000

/-! ## Claim theorems -/

/-- C1: the claim says `buildGenerationPrompt` is pure and deterministic (it
is), but also that the prompt contains the `toneMap` phrase for the form's
tone, the `lengthMap` phrase for its length, and the language name
("English"/"Spanish").  In the source, `toneMap`, `lengthMap` and the `lang`
binding are dead code: the prompt template only interpolates `${details}`,
so the prompt is invariant under `tone`/`length`/`language` and contains
none of the mapped phrases.  `F1` has `tone = luxury`, `length = medium`,
`language = es`, yet its prompt contains neither the luxury tone phrase, nor
"120–180 words", nor "Spanish". -/
theorem generationPrompt_ignores_tone_length_language :
    (∀ (d : ValidatedForm) (t : Tone) (l : LengthOpt) (g : Language),
        buildGenerationPrompt { d with tone := t, length := l, language := g }
          = buildGenerationPrompt d)
    ∧ containsStr (buildGenerationPrompt F1) (toneMap Tone.luxury) = false
    ∧ containsStr (buildGenerationPrompt F1) (lengthMap LengthOpt.medium) = false
    ∧ containsStr (buildGenerationPrompt F1) (langOf F1) = false
    ∧ F1.tone = Tone.luxury ∧ F1.length = LengthOpt.medium ∧ langOf F1 = "Spanish" := by
  refine ⟨fun d t l g => rfl, by decide, by decide, by decide, rfl, rfl, by decide⟩

/-- C2: `addToHistory` prepends a new entry with `favorite = false` carrying
the generated id, truncates to the newest `HISTORY_LIMIT` (= 50) entries —
so adding to a full 50-entry log yields a 50-entry log without the oldest
original entry and with the new entry first — and marks the new entry as
selected; folding additions from the initial state leaves the log in exact
reverse insertion order (newest first) whenever at most 50 are made. -/
theorem addToHistory_spec (s : AppState) (id ts : String) (fm : ValidatedForm)
    (o : ListingOutputs) (l : List AddInput) :
    ((addToHistory id ts fm o s).history =
        (({ id := id, createdAt := ts, form := fm, outputs := o, favorite := false } : HistoryItem)
          :: s.history).take HISTORY_LIMIT)
    ∧ (addToHistory id ts fm o s).selectedHistoryId = some id
    ∧ (addToHistory id ts fm o s).history.head? =
        some { id := id, createdAt := ts, form := fm, outputs := o, favorite := false }
    ∧ (s.history.length = HISTORY_LIMIT →
        (addToHistory id ts fm o s).history =
          { id := id, createdAt := ts, form := fm, outputs := o, favorite := false }
            :: s.history.dropLast
        ∧ (addToHistory id ts fm o s).history.length = HISTORY_LIMIT)
    ∧ (l.length ≤ HISTORY_LIMIT →
        (addAll l initialState).history = (l.map mkItem).reverse) := by
  have h1 := addToHistory_history_eq id ts fm o s
  refine ⟨h1, rfl, ?_, ?_, ?_⟩
  · rw [h1]; rfl
  · intro hfull
    have h50 : HISTORY_LIMIT = 49 + 1 := rfl
    constructor
    · rw [h1, h50, List.take_succ_cons, List.dropLast_eq_take, hfull]
      rfl
    · rw [h1, List.length_take, List.length_cons, hfull]
      omega
  · intro hl
    rw [addAll_history_eq l initialState (by simp [initialState])]
    have : ((l.map mkItem).reverse ++ initialState.history) = (l.map mkItem).reverse := by
      simp [initialState]
    rw [this]
    exact List.take_of_length_le (by simpa using hl)

/-- Witness for `addToHistory_spec`: a concrete full 50-entry log and a
concrete 2-element insertion sequence. -/
theorem addToHistory_spec_witness :
    (fullState.history.length = HISTORY_LIMIT
      ∧ (addToHistory "new" "ts" F1 O1 fullState).history =
          { id := "new", createdAt := "ts", form := F1, outputs := O1, favorite := false }
            :: fullState.history.dropLast
      ∧ (addToHistory "new" "ts" F1 O1 fullState).history.length = HISTORY_LIMIT)
    ∧ (([⟨"a", "t1", F1, O1⟩, ⟨"b", "t2", F1, O1⟩] : List AddInput).length ≤ HISTORY_LIMIT
      ∧ (addAll [⟨"a", "t1", F1, O1⟩, ⟨"b", "t2", F1, O1⟩] initialState).history =
          (([⟨"a", "t1", F1, O1⟩, ⟨"b", "t2", F1, O1⟩] : List AddInput).map mkItem).reverse) := by
  have hfull : fullState.history.length = HISTORY_LIMIT := by
    simp [fullState, HISTORY_LIMIT]
  have h := addToHistory_spec fullState "new" "ts" F1 O1
    [⟨"a", "t1", F1, O1⟩, ⟨"b", "t2", F1, O1⟩]
  exact ⟨⟨hfull, (h.2.2.2.1 hfull).1, (h.2.2.2.1 hfull).2⟩,
    ⟨by decide, h.2.2.2.2 (by decide)⟩⟩

/-- C3 counterexample: the claim asserts length ≤ 50 in every reachable
state including the one produced by the startup load, but the load effect
installs the parsed array verbatim: loading 51 persisted entries yields a
51-entry log. -/
theorem startup_load_exceeds_capacity :
    (loadHistoryFromStorage (some (List.replicate 51 itemW)) initialState).history.length = 51
    ∧ ¬ ((loadHistoryFromStorage (some (List.replicate 51 itemW)) initialState).history.length
          ≤ HISTORY_LIMIT) := by
  have h : (loadHistoryFromStorage (some (List.replicate 51 itemW))
      initialState).history.length = 51 := by
    simp [loadHistoryFromStorage]
  exact ⟨h, by rw [h]; decide⟩

/-- C3 amended: the capacity invariant `length ≤ 50` is established by the
initial state and preserved by `addToHistory` (unconditionally),
`toggleFavorite`, `deleteFromHistory` and `updateOutputField`; the startup
load preserves it only when the persisted data itself has at most 50
entries (the load performs no truncation). -/
theorem capacity_preserved_amended :
    (∀ id ts fm o s, (addToHistory id ts fm o s).history.length ≤ HISTORY_LIMIT)
    ∧ (∀ id s, (toggleFavorite id s).history.length = s.history.length)
    ∧ (∀ id s, (deleteFromHistory id s).history.length ≤ s.history.length)
    ∧ (∀ id fld t s, (updateOutputField id fld t s).history.length = s.history.length)
    ∧ (∀ parsed s, (∀ L, parsed = some L → L.length ≤ HISTORY_LIMIT) →
        s.history.length ≤ HISTORY_LIMIT →
        (loadHistoryFromStorage parsed s).history.length ≤ HISTORY_LIMIT)
    ∧ initialState.history.length ≤ HISTORY_LIMIT := by
  refine ⟨?_, ?_, ?_, ?_, ?_, by decide⟩
  · intro id ts fm o s
    rw [addToHistory_history_eq, List.length_take]
    exact Nat.min_le_left _ _
  · intro id s; simp [toggleFavorite]
  · intro id s
    simp only [deleteFromHistory]
    split
    · exact List.length_filter_le _ _
    · exact List.length_filter_le _ _
  · intro id fld t s; simp [updateOutputField]
  · intro parsed s hb hs
    cases parsed with
    | none => exact hs
    | some L => exact hb L rfl

/-- Witness for `capacity_preserved_amended`: a bounded persisted log keeps
the loaded state within capacity. -/
theorem capacity_preserved_amended_witness :
    (loadHistoryFromStorage (some (List.replicate 50 itemW)) initialState).history.length
      ≤ HISTORY_LIMIT := by
  refine capacity_preserved_amended.2.2.2.2.1 (some (List.replicate 50 itemW))
    initialState ?_ (by decide)
  intro L hL
  injection hL with h
  subst h
  simp [HISTORY_LIMIT]

/-- Reading back the field just written. -/
theorem get_set_self (o : ListingOutputs) (f : ListingField) (v : Option String) :
    (o.set f v).get f = v := by
  cases f <;> rfl

/-- Writing one field leaves every other field unchanged. -/
theorem get_set_ne (o : ListingOutputs) (f g : ListingField) (v : Option String)
    (h : g ≠ f) : (o.set f v).get g = o.get g := by
  cases f <;> cases g <;> simp_all [ListingOutputs.set, ListingOutputs.get]

/-- Full evaluation of `rewriteSection` on the success path: output present,
target field truthy, response JSON carrying a truthy value for the key. -/
theorem rewriteSection_success_eq (f : ListingField) (instr : String) (json : ListingOutputs)
    (s : AppState) (o : ListingOutputs) (cur t : String)
    (ho : s.output = some o) (hcur : o.get f = some cur) (hcur' : cur ≠ "")
    (hj : json.get f = some t) (ht : t ≠ "") :
    rewriteSection f instr (.success json) s =
      ({ s with
          output := some (o.set f (some t))
          error := none
          rewriteLoadingKey := none
          history :=
            match s.selectedHistoryId with
            | some sid => s.history.map (fun h =>
                if h.id = sid then { h with outputs := h.outputs.set f (some t) } else h)
            | none => s.history }, true) := by
  have h1 : jsTruthy (o.get f) = true := by rw [hcur]; simp [jsTruthy, hcur']
  have h2 : jsTruthy (some t) = true := by simp [jsTruthy, ht]
  simp only [rewriteSection]
  rw [ho]
  simp only [h1, hj, h2, Option.getD_some, Bool.true_eq_false, if_false, updateOutputField]
  cases s.selectedHistoryId <;> rfl

/-- C4: a successful rewrite of field `f` replaces only `f`: the live output
becomes the old output with just `f` overwritten (all other fields read back
unchanged); in the history log the non-selected entries are untouched (and
still present), while the selected entry keeps its id, createdAt, form,
favorite and all other output fields, changing only `outputs.f`. -/
theorem rewrite_success_isolation (s : AppState) (f : ListingField) (instr : String)
    (json o : ListingOutputs) (cur t : String)
    (ho : s.output = some o) (hcur : o.get f = some cur) (hcur' : cur ≠ "")
    (hj : json.get f = some t) (ht : t ≠ "") :
    (rewriteSection f instr (.success json) s).1.output = some (o.set f (some t))
    ∧ (o.set f (some t)).get f = some t
    ∧ (∀ g, g ≠ f → (o.set f (some t)).get g = o.get g)
    ∧ (s.selectedHistoryId = none →
        (rewriteSection f instr (.success json) s).1.history = s.history)
    ∧ (∀ sid, s.selectedHistoryId = some sid →
        (rewriteSection f instr (.success json) s).1.history =
          s.history.map (fun h =>
            if h.id = sid then { h with outputs := h.outputs.set f (some t) } else h)
        ∧ (∀ h ∈ s.history, h.id ≠ sid →
            h ∈ (rewriteSection f instr (.success json) s).1.history))
    ∧ (∀ h : HistoryItem,
        ({ h with outputs := h.outputs.set f (some t) } : HistoryItem).id = h.id
        ∧ ({ h with outputs := h.outputs.set f (some t) } : HistoryItem).createdAt = h.createdAt
        ∧ ({ h with outputs := h.outputs.set f (some t) } : HistoryItem).form = h.form
        ∧ ({ h with outputs := h.outputs.set f (some t) } : HistoryItem).favorite = h.favorite
        ∧ ({ h with outputs := h.outputs.set f (some t) } : HistoryItem).outputs.get f = some t
        ∧ (∀ g, g ≠ f →
            ({ h with outputs := h.outputs.set f (some t) } : HistoryItem).outputs.get g
              = h.outputs.get g)) := by
  have he := rewriteSection_success_eq f instr json s o cur t ho hcur hcur' hj ht
  refine ⟨?_, get_set_self o f (some t), fun g hg => get_set_ne o f g (some t) hg,
    ?_, ?_, ?_⟩
  · rw [he]
  · intro hsel
    rw [he]
    simp only [hsel]
  · intro sid hsel
    constructor
    · rw [he]
      simp only [hsel]
    · intro h hmem hne
      rw [he]
      simp only [hsel]
      have hfix : (if h.id = sid then
          ({ h with outputs := h.outputs.set f (some t) } : HistoryItem) else h) = h :=
        if_neg hne
      exact hfix ▸ List.mem_map_of_mem _ hmem
  · intro h
    exact ⟨rfl, rfl, rfl, rfl, get_set_self _ _ _, fun g hg => get_set_ne _ _ _ _ hg⟩

/-- Witness for `rewrite_success_isolation`: a concrete rewrite of `mls` in
`readyState`, checking the live output and that `heading` is untouched. -/
theorem rewrite_success_isolation_witness :
    (rewriteSection ListingField.mls "Make this shorter while keeping key details."
        (.success mlsJson) readyState).1.output
      = some (O1.set ListingField.mls (some "Shorter condo text."))
    ∧ (O1.set ListingField.mls (some "Shorter condo text.")).get ListingField.heading
      = O1.get ListingField.heading := by
  have h := rewrite_success_isolation readyState ListingField.mls
    "Make this shorter while keeping key details." mlsJson O1
    "Spacious condo with ocean views and an updated kitchen." "Shorter condo text."
    rfl rfl (by decide) rfl (by decide)
  exact ⟨h.1, h.2.2.1 ListingField.heading (by decide)⟩

/-- C5: the claim says that while any rewrite is pending, a second rewrite
request for a different field is rejected; in the source the only guard is
the per-button `disabled` expression `rewriteLoadingKey?.startsWith("<field>:")
|| loading`, and `rewriteSection` itself never checks the busy flags.  In
`pendingRewriteState` a `zillow` rewrite is pending (so `isBusy` is true and
the claim demands rejection), yet the `mls` buttons are enabled and invoking
`rewriteSection` on `mls` sends a request; when this second rewrite settles
it also clears the shared `rewriteLoadingKey` even though the first is still
in flight. -/
theorem second_rewrite_not_rejected :
    pendingRewriteState.rewriteLoadingKey ≠ none
    ∧ isBusy pendingRewriteState = true
    ∧ rewriteButtonDisabled pendingRewriteState ListingField.mls = false
    ∧ (rewriteSection ListingField.mls "Make this shorter while keeping key details."
        (.success mlsJson) pendingRewriteState).2 = true
    ∧ (rewriteSection ListingField.mls "Make this shorter while keeping key details."
        (.success mlsJson) pendingRewriteState).1.rewriteLoadingKey = none := by
  exact ⟨by decide, by decide, by decide, by decide, by decide⟩

/-- A string has positive length exactly when it is non-empty. -/
theorem one_le_length_iff (s : String) : 1 ≤ s.length ↔ s ≠ "" := by
  cases s with
  | mk data =>
    cases data with
    | nil => decide
    | cons a as =>
      constructor
      · intro _ heq
        exact absurd (congrArg String.data heq) (by simp)
      · intro _
        simp [String.length]

/-- C6 counterexample: the claim says a key missing from the parsed JSON is
treated as the empty string in the resulting `ListingOutputs`.  With the
valid-JSON response `\x7b\x7d` the code stores the parsed object as-is (the
`as ListingOutputs` cast checks nothing), so `heading` is `undefined`
(`none`), not the empty string. -/
theorem missing_key_left_undefined :
    (generate "id1" "ts1" (.success emptyJson) validState).1.output = some emptyJson
    ∧ emptyJson.get ListingField.heading = none
    ∧ ¬ (emptyJson.get ListingField.heading = some "") := by
  refine ⟨by decide, rfl, by decide⟩

/-- C6 amended: for a form that passes validation, a response that is not
valid JSON (or a failed request) makes `generate` set the error to
"OpenAI Error: " followed by the exception message, leave the displayed
output empty and the history (and everything else) unchanged — no entry is
created; a valid-JSON response is stored verbatim as the resulting
`ListingOutputs`, so keys missing from the parsed object remain absent
(`undefined`) rather than being replaced by empty strings. -/
theorem generate_parse_behavior (s : AppState) (id ts msg : String)
    (json : ListingOutputs) (d : ValidatedForm)
    (hv : validateForm s.form = some d) :
    generate id ts (.failure msg) s =
      ({ s with
          loading := false
          output := none
          error := some ("OpenAI Error: " ++ msg) }, true)
    ∧ (generate id ts (.success json) s).1.output = some json := by
  constructor
  · simp only [generate]
    rw [show validateForm
        ({ s with loading := true, output := none, error := none } : AppState).form
        = some d from hv]
  · simp only [generate]
    rw [show validateForm
        ({ s with loading := true, output := none, error := none } : AppState).form
        = some d from hv]
    rfl

/-- Witness for `generate_parse_behavior` at a concrete valid form. -/
theorem generate_parse_behavior_witness :
    generate "id1" "ts1" (.failure "Unexpected token < in JSON") validState =
      ({ validState with
          loading := false
          output := none
          error := some ("OpenAI Error: " ++ "Unexpected token < in JSON") }, true)
    ∧ (generate "id1" "ts1" (.success O1) validState).1.output = some O1 :=
  generate_parse_behavior validState "id1" "ts1" "Unexpected token < in JSON" O1 F1 (by decide)

/-- C7: `validateForm` succeeds exactly on forms with non-empty
`propertyType`, `highlights` of length at least 3, and in-range
`tone`/`length`/`language` strings — the optional fields are irrelevant (they
do not occur in the condition); each enum parser accepts exactly its
enumerated values (so injected out-of-range strings are rejected); and on a
rejected form `generate` produces the single fixed message naming Property
Type and Highlights and sends no request. -/
theorem validation_spec (f : RawForm) (s : AppState) (id ts : String) (resp : ModelResponse) :
    ((validateForm f).isSome ↔
      (f.propertyType ≠ "" ∧ 3 ≤ f.highlights.length
        ∧ (parseTone f.tone).isSome ∧ (parseLength f.length).isSome
        ∧ (parseLanguage f.language).isSome))
    ∧ (∀ str, (parseTone str).isSome ↔
        (str = "standard" ∨ str = "luxury" ∨ str = "investor" ∨ str = "casual"
          ∨ str = "hype" ∨ str = "simple"))
    ∧ (∀ str, (parseLength str).isSome ↔ (str = "short" ∨ str = "medium" ∨ str = "long"))
    ∧ (∀ str, (parseLanguage str).isSome ↔ (str = "en" ∨ str = "es"))
    ∧ (validateForm s.form = none →
        generate id ts resp s =
          ({ s with loading := false, output := none, error := some validationErrorMsg },
            false)) := by
  refine ⟨?_, ?_, ?_, ?_, ?_⟩
  · cases hT : parseTone f.tone <;> cases hL : parseLength f.length <;>
      cases hG : parseLanguage f.language <;>
      simp [validateForm, hT, hL, hG, one_le_length_iff, apply_ite Option.isSome]
  · intro str
    simp only [parseTone]
    split_ifs <;> simp_all
  · intro str
    simp only [parseLength]
    split_ifs <;> simp_all
  · intro str
    simp only [parseLanguage]
    split_ifs <;> simp_all
  · intro hv
    simp only [generate]
    rw [show validateForm
        ({ s with loading := true, output := none, error := none } : AppState).form
        = none from hv]

/-- Witness for `validation_spec`: the initial form (empty `propertyType`
and `highlights`) is rejected with the fixed message and no request. -/
theorem validation_spec_witness :
    validateForm initialState.form = none
    ∧ generate "id1" "ts1" (.success O1) initialState =
        ({ initialState with
            loading := false, output := none, error := some validationErrorMsg },
          false) := by
  have h := validation_spec initialState.form initialState "id1" "ts1" (.success O1)
  exact ⟨by decide, h.2.2.2.2 (by decide)⟩

/-- C8: `deleteFromHistory id` removes exactly the entries matching `id`
(every other entry survives); if `id` was the selected entry it clears both
the selection and the displayed output, and otherwise it leaves selection
and output untouched. -/
theorem delete_selection_coupling (s : AppState) (id : String) :
    (deleteFromHistory id s).history = s.history.filter (fun h => h.id != id)
    ∧ (∀ h ∈ (deleteFromHistory id s).history, h.id ≠ id)
    ∧ (∀ h ∈ s.history, h.id ≠ id → h ∈ (deleteFromHistory id s).history)
    ∧ (s.selectedHistoryId = some id →
        (deleteFromHistory id s).selectedHistoryId = none
        ∧ (deleteFromHistory id s).output = none)
    ∧ (s.selectedHistoryId ≠ some id →
        (deleteFromHistory id s).selectedHistoryId = s.selectedHistoryId
        ∧ (deleteFromHistory id s).output = s.output) := by
  have hh : (deleteFromHistory id s).history = s.history.filter (fun h => h.id != id) := by
    simp only [deleteFromHistory]
    split <;> rfl
  refine ⟨hh, ?_, ?_, ?_, ?_⟩
  · intro h hm
    rw [hh, List.mem_filter] at hm
    simpa [bne_iff_ne] using hm.2
  · intro h hm hne
    rw [hh, List.mem_filter]
    exact ⟨hm, by simpa [bne_iff_ne] using hne⟩
  · intro hsel
    simp only [deleteFromHistory]
    rw [if_pos hsel]
    exact ⟨rfl, rfl⟩
  · intro hsel
    simp only [deleteFromHistory]
    rw [if_neg hsel]
    exact ⟨rfl, rfl⟩

/-- Witness for `delete_selection_coupling`: deleting the selected `"e1"`
clears selection and output; deleting the non-selected `"e2"` leaves both,
and `entry2` survives the first deletion. -/
theorem delete_selection_coupling_witness :
    ((deleteFromHistory "e1" readyState).selectedHistoryId = none
      ∧ (deleteFromHistory "e1" readyState).output = none)
    ∧ ((deleteFromHistory "e2" readyState).selectedHistoryId = readyState.selectedHistoryId
      ∧ (deleteFromHistory "e2" readyState).output = readyState.output)
    ∧ entry2 ∈ (deleteFromHistory "e1" readyState).history := by
  have h1 := delete_selection_coupling readyState "e1"
  have h2 := delete_selection_coupling readyState "e2"
  exact ⟨h1.2.2.2.1 (by decide), h2.2.2.2.2 (by decide),
    h1.2.2.1 entry2 (by decide) (by decide)⟩

/-- C9: if the parsed rewrite response lacks the requested key, the rewrite
fails with the rewrite-specific message ("Rewrite error: Model did not
return rewritten field."), and the output, the history log and the selection
are all left untouched — in particular field `f` keeps its original value in
both the live output and every history entry. -/
theorem rewrite_missing_field_error (s : AppState) (f : ListingField) (instr : String)
    (json o : ListingOutputs) (cur : String)
    (ho : s.output = some o) (hcur : o.get f = some cur) (hcur' : cur ≠ "")
    (hmiss : json.get f = none) :
    (rewriteSection f instr (.success json) s).1.error
        = some "Rewrite error: Model did not return rewritten field."
    ∧ (rewriteSection f instr (.success json) s).1.output = s.output
    ∧ (rewriteSection f instr (.success json) s).1.history = s.history
    ∧ (rewriteSection f instr (.success json) s).1.selectedHistoryId = s.selectedHistoryId
    ∧ (rewriteSection f instr (.success json) s).2 = true := by
  have h1 : jsTruthy (o.get f) = true := by rw [hcur]; simp [jsTruthy, hcur']
  have h2 : jsTruthy (json.get f) = false := by rw [hmiss]; rfl
  simp only [rewriteSection]
  rw [ho]
  simp only [h1, h2, Bool.true_eq_false, if_false]
  exact ⟨rfl, rfl, rfl, rfl, rfl⟩

/-- Witness for `rewrite_missing_field_error`: a concrete `mls` rewrite of
`readyState` answered with `\x7b\x7d`. -/
theorem rewrite_missing_field_error_witness :
    (rewriteSection ListingField.mls "Make this shorter while keeping key details."
        (.success emptyJson) readyState).1.error
      = some "Rewrite error: Model did not return rewritten field."
    ∧ (rewriteSection ListingField.mls "Make this shorter while keeping key details."
        (.success emptyJson) readyState).1.output = readyState.output := by
  have h := rewrite_missing_field_error readyState ListingField.mls
    "Make this shorter while keeping key details." emptyJson O1
    "Spacious condo with ocean views and an updated kitchen." rfl rfl (by decide) rfl
  exact ⟨h.1, h.2.1⟩

/-- C10: with no current output, or with the target field holding the empty
string, `rewriteSection` is a complete no-op: it returns the state unchanged
(output, history, selection, error and both loading flags included) and
sends no network request. -/
theorem rewrite_noop_on_empty (s : AppState) (f : ListingField) (instr : String)
    (resp : ModelResponse)
    (h : s.output = none ∨ ∃ o, s.output = some o ∧ o.get f = some "") :
    rewriteSection f instr resp s = (s, false) := by
  rcases h with h | ⟨o, ho, hf⟩
  · simp only [rewriteSection]
    rw [h]
  · have hfalse : jsTruthy (o.get f) = false := by rw [hf]; rfl
    simp only [rewriteSection]
    rw [ho]
    simp only [hfalse]
    exact if_pos trivial

/-- Witness for `rewrite_noop_on_empty`: no output at all, and an output
whose `mls` text is empty. -/
theorem rewrite_noop_on_empty_witness :
    rewriteSection ListingField.mls "Make this shorter while keeping key details."
        (.failure "network") initialState = (initialState, false)
    ∧ rewriteSection ListingField.mls "Make this shorter while keeping key details."
        (.success mlsJson) emptyMlsState = (emptyMlsState, false) := by
  constructor
  · exact rewrite_noop_on_empty initialState ListingField.mls
      "Make this shorter while keeping key details." (.failure "network") (Or.inl rfl)
  · exact rewrite_noop_on_empty emptyMlsState ListingField.mls
      "Make this shorter while keeping key details." (.success mlsJson)
      (Or.inr ⟨{ O1 with mls := some "" }, rfl, rfl⟩)

end LuxList
